import Mathlib

/-!
Verification development for the dynamic service-discovery core of the
`caddy-plus` repository (package `dynamic_sd` and `internal/providers`).

The Go sources are shallowly embedded: pure computation becomes Lean
functions; the provider-internal mutable state (the `upstreams` slice and,
for the mDNS provider, the `activeServices` map) becomes explicit state
passing; the Go `error` results become `Except String` / `Option String`
values; a Go runtime panic is modelled by an `Option` returning `none`.
Go maps are modelled as association lists with pairwise-distinct keys.
-/

namespace CaddyPlus

/-- One reachable backend, `reverseproxy.Upstream`: only its `Dial` field
("host:port" dial target) is used by this repository. -/
structure Upstream where
  Dial : String
deriving DecidableEq

/-- Embedding of the Go `net.JoinHostPort`: the host is wrapped in square
brackets when one of its characters is a colon (an IPv6 literal). -/
def joinHostPort (host port : String) : String :=
  if host.data.contains ':' then "[" ++ host ++ "]:" ++ port
  else host ++ ":" ++ port

namespace Nacos

/-- The fields of `model.Instance` (nacos-sdk-go) read by the subscription
callback in `nacos.go`: `Enable`, `Healthy`, `Ip`, `Port` (a `uint64`;
ports fit far below `2^64`, so `Nat` is used without wraparound). -/
structure Instance where
  Enable : Bool
  Healthy : Bool
  Ip : String
  Port : Nat
deriving DecidableEq

/-- Embedding of the `SubscribeCallback` closure in
`subscribeToServiceChanges` (`nacos.go` lines 91-115).  The callback
receives the delivered instance slice and an error; on a non-nil error it
logs and returns without touching `np.upstreams` (modelled by returning
the previous list).  On success it rebuilds `newUpstreams` by appending,
for each delivered instance with `Enable && Healthy`, an upstream whose
dial target is `net.JoinHostPort(ip, FormatUint(port))`, then installs the
new list under `np.mu`. -/
def SubscribeCallback (prev : List Upstream) (services : List Instance)
    (err : Option String) : List Upstream :=
  match err with
  | some _ => prev
  | none =>
    services.foldl
      (fun acc s =>
        if s.Enable && s.Healthy then
          acc ++ [⟨joinHostPort s.Ip (toString s.Port)⟩]
        else acc)
      []

/-- Embedding of `NacosProvider.GetUpstreams` (`nacos.go` lines 159-167):
under the read lock, an empty `upstreams` slice yields the error
`no healthy upstreams available for service: <name>`; a non-empty slice is
returned with a nil error. -/
def GetUpstreams (upstreams : List Upstream) (serviceName : String) :
    Except String (List Upstream) :=
  if upstreams.length == 0 then
    Except.error ("no healthy upstreams available for service: " ++ serviceName)
  else
    Except.ok upstreams

/-- Observable outcome of `NacosProvider.Cleanup`: whether
`np.client.CloseClient()` was reached, and the returned error value. -/
structure CleanupResult where
  closeAttempted : Bool
  result : Except String Unit

/-- Embedding of `NacosProvider.Cleanup` (`nacos.go` lines 140-155).
`hasClient` models `np.client != nil` (a nil client returns nil at once).
Otherwise `Unsubscribe` runs; on a non-nil error the method returns the
wrapped error immediately, so `CloseClient` is reached only when
`Unsubscribe` succeeded. -/
def Cleanup (hasClient : Bool) (unsubscribeResult : Except String Unit)
    (serviceName : String) : CleanupResult :=
  if !hasClient then
    { closeAttempted := false, result := Except.ok () }
  else
    match unsubscribeResult with
    | Except.error e =>
      { closeAttempted := false
        result := Except.error
          ("unsubscribing from nacos service \x27" ++ serviceName ++ "\x27: " ++ e) }
    | Except.ok () =>
      { closeAttempted := true, result := Except.ok () }

end Nacos

namespace Consul

/-- The fields of a Consul `api.ServiceEntry` read by
`ConsulProvider.updateUpstreams`: `entry.Service.Address`,
`entry.Node.Address` and `entry.Service.Port`. -/
structure ServiceEntry where
  ServiceAddress : String
  NodeAddress : String
  ServicePort : Nat
deriving DecidableEq

/-- Embedding of `ConsulProvider.updateUpstreams` (`module.go` /
`consul.go` lines 203-231).  `queryResult` is the outcome of
`cp.client.Health().Service(...)`: on an error the method returns before
any write, leaving `cp.upstreams` unchanged (modelled by returning the
previous list).  On success it builds `newUpstreams` by appending, for
each entry, `net.JoinHostPort(addr, Itoa(port))` where `addr` is
`Service.Address` when non-empty and `Node.Address` otherwise, then
installs the new list under `cp.mu` (also when it is empty). -/
def updateUpstreams (prev : List Upstream)
    (queryResult : Except String (List ServiceEntry)) : List Upstream :=
  match queryResult with
  | Except.error _ => prev
  | Except.ok serviceEntries =>
    serviceEntries.foldl
      (fun acc entry =>
        let addr :=
          if entry.ServiceAddress == "" then entry.NodeAddress
          else entry.ServiceAddress
        acc ++ [⟨joinHostPort addr (toString entry.ServicePort)⟩])
      []

/-- Embedding of `ConsulProvider.GetUpstreams` (`consul.go` lines
269-277): an empty slice yields the error
`no healthy upstreams available for service: <name>`. -/
def GetUpstreams (upstreams : List Upstream) (serviceName : String) :
    Except String (List Upstream) :=
  if upstreams.length == 0 then
    Except.error ("no healthy upstreams available for service: " ++ serviceName)
  else
    Except.ok upstreams

end Consul

namespace Mdns

/-- The fields of a `zeroconf.ServiceEntry` read by `runDiscovery`
(`mdns.go`): instance name, service port, TTL, and the already-rendered
`String()` forms of the `AddrIPv4` / `AddrIPv6` slices. -/
structure ServiceEntry where
  Instance : String
  Port : Nat
  TTL : Nat
  AddrIPv4 : List String
  AddrIPv6 : List String
deriving DecidableEq

/-- Association-list embedding of the Go map lookup
`activeServices[entry.Instance]`. -/
def lookupKey (k : String) : List (String × Upstream) → Option Upstream
  | [] => none
  | (k0, v0) :: rest => if k0 == k then some v0 else lookupKey k rest

/-- Association-list embedding of the Go map assignment
`activeServices[k] = v`: replaces the value at an existing key, appends
a fresh binding otherwise. -/
def insertKey (k : String) (v : Upstream) :
    List (String × Upstream) → List (String × Upstream)
  | [] => [(k, v)]
  | (k0, v0) :: rest =>
    if k0 == k then (k, v) :: rest else (k0, v0) :: insertKey k v rest

/-- Association-list embedding of the Go map deletion
`delete(activeServices, k)` (keys are pairwise distinct, as in a Go map). -/
def eraseKey (k : String) :
    List (String × Upstream) → List (String × Upstream)
  | [] => []
  | (k0, v0) :: rest =>
    if k0 == k then rest else (k0, v0) :: eraseKey k rest

/-- Embedding of `MdnsProvider.updateUpstreams` (`mdns.go` lines
122-133): flattens the active-instances map into a fresh slice by
appending every stored upstream, and installs it under `mp.mu`. -/
def updateUpstreams (activeServices : List (String × Upstream)) : List Upstream :=
  activeServices.foldl (fun acc kv => acc ++ [kv.2]) []

/-- The state owned by the mDNS consumer goroutine: the
`activeServices` map and the provider installed `upstreams` slice. -/
structure State where
  activeServices : List (String × Upstream)
  upstreams : List Upstream
deriving DecidableEq

/-- Embedding of one iteration of the consumer loop
`for entry := range entries` in `runDiscovery` (`mdns.go` lines 77-107).
`none` models a Go runtime panic.  With `entry.TTL == 0`: a present
instance is deleted and the store refreshed, an absent one is skipped.
Otherwise the code evaluates `entry.AddrIPv4[0].String()` unconditionally
(line 89), which panics with an index-out-of-range when `AddrIPv4` is
empty; then, if that string is empty and `AddrIPv6` is non-empty, it
falls back to `entry.AddrIPv6[0].String()`; an address that is still
empty causes the entry to be skipped; otherwise the instance is inserted
and the store refreshed. -/
def processEntry (st : State) (entry : ServiceEntry) : Option State :=
  if entry.TTL == 0 then
    if (lookupKey entry.Instance st.activeServices).isSome then
      let m := eraseKey entry.Instance st.activeServices
      some { activeServices := m, upstreams := updateUpstreams m }
    else
      some st
  else
    match entry.AddrIPv4 with
    | [] => none
    | a0 :: _ =>
      let addr := a0
      let addr :=
        if addr == "" && decide (0 < entry.AddrIPv6.length) then
          entry.AddrIPv6.headD ""
        else addr
      if addr == "" then
        some st
      else
        let upstream : Upstream := ⟨joinHostPort addr (toString entry.Port)⟩
        let m := insertKey entry.Instance upstream st.activeServices
        some { activeServices := m, upstreams := updateUpstreams m }

/-- Embedding of `MdnsProvider.GetUpstreams` (`mdns.go` lines 153-161):
an empty slice yields the error
`no mDNS instances available for service: <name>`. -/
def GetUpstreams (upstreams : List Upstream) (serviceName : String) :
    Except String (List Upstream) :=
  if upstreams.length == 0 then
    Except.error ("no mDNS instances available for service: " ++ serviceName)
  else
    Except.ok upstreams

end Mdns

namespace Dispatch

/-- The behaviour of the provider a `DynamicSD` value delegates to: the
results its `Validate`, `Cleanup` and `GetUpstreams` would produce. -/
structure ProviderOps where
  validateResult : Except String Unit
  cleanupResult : Except String Unit
  getUpstreamsResult : Except String (List Upstream)

/-- The `DynamicSD` module state (`module.go`): its single `provider`
field, `none` when no provider has been selected (`d.provider == nil`). -/
def DynamicSD : Type := Option ProviderOps

/-- Embedding of `DynamicSD.Validate` (`module.go` lines 54-59): a nil
provider yields the error `no service discovery provider is configured`;
otherwise the call is forwarded. -/
def Validate (d : DynamicSD) : Except String Unit :=
  match d with
  | none => Except.error "no service discovery provider is configured"
  | some p => p.validateResult

/-- Embedding of `DynamicSD.Cleanup` (`module.go` lines 63-68): a non-nil
provider `Cleanup` is forwarded; with a nil provider the method returns
nil. -/
def Cleanup (d : DynamicSD) : Except String Unit :=
  match d with
  | none => Except.ok ()
  | some p => p.cleanupResult

/-- Embedding of `DynamicSD.GetUpstreams` (`module.go` lines 72-78): a
nil provider yields the error
`no service discovery provider is configured`; otherwise the call is
forwarded. -/
def GetUpstreams (d : DynamicSD) : Except String (List Upstream) :=
  match d with
  | none => Except.error "no service discovery provider is configured"
  | some p => p.getUpstreamsResult

end Dispatch

namespace Store

/-- One atomic event on a single provider snapshot store.  The Go
sources guard every write (`np.upstreams = newUpstreams` under
`np.mu.Lock()`) and every read (`GetUpstreams` under `np.mu.RLock()`)
with the provider mutex, so each write and each read is a single
indivisible event; a provider history is therefore one linear sequence
of such events, which also totally orders its replacements. -/
inductive Event
  | replace (snapshot : List Upstream)
  | read (result : List Upstream)
deriving DecidableEq

/-- Whether an event sequence is an execution of the store that currently
holds `cur`: a replace installs its snapshot, and every read returns
exactly the snapshot installed most recently before it. -/
def validFrom (cur : List Upstream) : List Event → Bool
  | [] => true
  | Event.replace s :: rest => validFrom s rest
  | Event.read r :: rest => decide (r = cur) && validFrom cur rest

/-- Whether an event sequence is an execution of a freshly constructed
store, whose initial snapshot is the empty list (`nil` slice). -/
def validTrace (events : List Event) : Bool :=
  validFrom [] events

end Store

/-! Helper lemmas shared by the claim theorems. -/

/-- Closed form of the append-only rebuild loop of the Nacos subscription
callback: folding over the delivered instances equals filtering by the
enabled-and-healthy flags and mapping to dial targets. -/
theorem nacos_rebuild_go (services : List Nacos.Instance) (acc : List Upstream) :
    services.foldl
      (fun acc s =>
        if s.Enable && s.Healthy then
          acc ++ [⟨joinHostPort s.Ip (toString s.Port)⟩]
        else acc)
      acc
    = acc ++ (services.filter (fun s => s.Enable && s.Healthy)).map
        (fun s => ⟨joinHostPort s.Ip (toString s.Port)⟩) := by
  induction services generalizing acc with
  | nil => simp
  | cons s rest ih =>
    rw [List.foldl_cons, List.filter_cons]
    by_cases h : (s.Enable && s.Healthy) = true
    · rw [if_pos h, if_pos h, ih, List.map_cons, List.append_assoc,
        List.singleton_append]
    · rw [if_neg h, if_neg h, ih]

/-- Closed form of the append-only rebuild loop of the Consul poll: the
fold over the returned service entries equals mapping each entry to the
dial target built from the address fallback and the service port. -/
theorem consul_rebuild_go (serviceEntries : List Consul.ServiceEntry)
    (acc : List Upstream) :
    serviceEntries.foldl
      (fun acc entry =>
        let addr :=
          if entry.ServiceAddress == "" then entry.NodeAddress
          else entry.ServiceAddress
        acc ++ [⟨joinHostPort addr (toString entry.ServicePort)⟩])
      acc
    = acc ++ serviceEntries.map
        (fun entry =>
          ⟨joinHostPort
            (if entry.ServiceAddress == "" then entry.NodeAddress
             else entry.ServiceAddress)
            (toString entry.ServicePort)⟩) := by
  induction serviceEntries generalizing acc with
  | nil => simp
  | cons entry rest ih =>
    rw [List.foldl_cons, ih, List.map_cons, List.append_assoc,
      List.singleton_append]

/-- A key that does not occur in the association list has no binding. -/
theorem lookupKey_of_not_mem (k : String) (l : List (String × Upstream))
    (h : k ∉ l.map Prod.fst) : Mdns.lookupKey k l = none := by
  induction l with
  | nil => rfl
  | cons kv rest ih =>
    simp only [List.map_cons, List.mem_cons, not_or] at h
    simp only [Mdns.lookupKey]
    rw [if_neg, ih h.2]
    simp only [beq_iff_eq]
    exact fun hk => h.1 hk.symm

/-- Deleting a key from an association list with pairwise-distinct keys
removes its binding. -/
theorem lookupKey_eraseKey_self (k : String) (l : List (String × Upstream))
    (h : (l.map Prod.fst).Nodup) :
    Mdns.lookupKey k (Mdns.eraseKey k l) = none := by
  induction l with
  | nil => rfl
  | cons kv rest ih =>
    simp only [List.map_cons, List.nodup_cons] at h
    simp only [Mdns.eraseKey]
    by_cases hk : kv.1 == k
    · rw [if_pos hk]
      have : kv.1 = k := by simpa using hk
      exact this ▸ lookupKey_of_not_mem kv.1 rest h.1
    · rw [if_neg hk]
      simp only [Mdns.lookupKey]
      rw [if_neg hk, ih h.2]

/-- Deleting one key from an association list leaves the binding of every
other key unchanged. -/
theorem lookupKey_eraseKey_ne (k k1 : String) (l : List (String × Upstream))
    (h : k1 ≠ k) :
    Mdns.lookupKey k1 (Mdns.eraseKey k l) = Mdns.lookupKey k1 l := by
  induction l with
  | nil => rfl
  | cons kv rest ih =>
    simp only [Mdns.eraseKey]
    by_cases hk : kv.1 == k
    · rw [if_pos hk]
      have hkk : kv.1 = k := by simpa using hk
      have : ¬(kv.1 == k1) := by
        simp only [beq_iff_eq]
        exact fun hcontra => h (hcontra ▸ hkk ▸ rfl)
      simp only [Mdns.lookupKey]
      rw [if_neg this]
    · rw [if_neg hk]
      simp only [Mdns.lookupKey]
      by_cases hk1 : kv.1 == k1
      · rw [if_pos hk1, if_pos hk1]
      · rw [if_neg hk1, if_neg hk1, ih]

/-- Every read in a valid execution suffix starting from snapshot `cur`
returns either `cur` itself or a snapshot installed by some replace event
of the suffix. -/
theorem validFrom_read_mem (cur : List Upstream) (events : List Store.Event)
    (hvalid : Store.validFrom cur events = true) (r : List Upstream)
    (hr : Store.Event.read r ∈ events) :
    r = cur ∨ Store.Event.replace r ∈ events := by
  induction events generalizing cur with
  | nil => cases hr
  | cons e rest ih =>
    cases e with
    | replace s =>
      simp only [Store.validFrom] at hvalid
      cases hr with
      | tail _ hr0 =>
        rcases ih s hvalid hr0 with h | h
        · exact Or.inr (h ▸ List.mem_cons_self _ _)
        · exact Or.inr (List.mem_cons_of_mem _ h)
    | read r0 =>
      simp only [Store.validFrom, Bool.and_eq_true, decide_eq_true_eq] at hvalid
      cases hr with
      | head => exact Or.inl hvalid.1
      | tail _ hr0 =>
        rcases ih cur hvalid.2 hr0 with h | h
        · exact Or.inl h
        · exact Or.inr (List.mem_cons_of_mem _ h)

/-! Claim theorems. -/

/-- C1: the mDNS consumer is claimed to fall back to the first IPv6
address when no IPv4 address is present.  On the code this is false: line
89 of `mdns.go` evaluates `entry.AddrIPv4[0].String()` unconditionally,
so an entry with TTL > 0 and an empty `AddrIPv4` slice makes the consumer
goroutine panic with an index-out-of-range (modelled by `none`) instead
of resolving the IPv6 dial target; with an IPv4 address present the entry
is installed as claimed. -/
theorem c1_mdns_ipv6_fallback_is_panic :
    Mdns.processEntry ⟨[], []⟩
        { Instance := "svc-a", Port := 8080, TTL := 120,
          AddrIPv4 := [], AddrIPv6 := ["fe80::1"] } = none
  ∧ Mdns.processEntry ⟨[], []⟩
        { Instance := "svc-a", Port := 8080, TTL := 120,
          AddrIPv4 := ["10.0.0.1"], AddrIPv6 := [] }
      = some ⟨[("svc-a", ⟨"10.0.0.1:8080"⟩)], [⟨"10.0.0.1:8080"⟩]⟩ := by
  exact ⟨rfl, by decide⟩

/-- C2 counterexample: the claim states that `Cleanup` on a `DynamicSD`
with no selected provider returns the no-provider-configured error; the
code (`module.go` lines 63-68) instead returns nil, a silent no-op. -/
theorem c2_cleanup_nil_counterexample :
    Dispatch.Cleanup none = Except.ok ()
  ∧ Dispatch.Cleanup none
      ≠ Except.error "no service discovery provider is configured" :=
  ⟨rfl, fun h => Except.noConfusion h⟩

/-- C2 (amended): with no selected provider, `Validate` and
`GetUpstreams` fail with the error
`no service discovery provider is configured`, while `Cleanup` returns
nil (a silent no-op) rather than that error. -/
theorem c2_nil_provider_amended :
    Dispatch.Validate none
        = Except.error "no service discovery provider is configured"
  ∧ Dispatch.GetUpstreams none
        = Except.error "no service discovery provider is configured"
  ∧ Dispatch.Cleanup none = Except.ok () :=
  ⟨rfl, rfl, rfl⟩

/-- C3 counterexample: the claim states that `NacosProvider.Cleanup`
always attempts `CloseClient` even when the unsubscribe fails; the code
(`nacos.go` lines 146-153) returns the unsubscribe error before the
`CloseClient` call, so the close is not attempted. -/
theorem c3_close_not_attempted_counterexample :
    (Nacos.Cleanup true (Except.error "connection reset") "svc").closeAttempted
      = false :=
  rfl

/-- C3 (amended): with a constructed client, `NacosProvider.Cleanup`
attempts `CloseClient` only when the unsubscribe succeeds; an unsubscribe
failure is returned as a wrapped error and prevents the close from being
attempted, and with no constructed client the method returns nil without
closing. -/
theorem c3_cleanup_amended (e serviceName : String) :
    (Nacos.Cleanup true (Except.error e) serviceName).closeAttempted = false
  ∧ (Nacos.Cleanup true (Except.error e) serviceName).result
      = Except.error
          ("unsubscribing from nacos service \x27" ++ serviceName ++ "\x27: " ++ e)
  ∧ (Nacos.Cleanup true (Except.ok ()) serviceName).closeAttempted = true
  ∧ (Nacos.Cleanup true (Except.ok ()) serviceName).result = Except.ok ()
  ∧ (Nacos.Cleanup false (Except.ok ()) serviceName).closeAttempted = false :=
  ⟨rfl, rfl, rfl, rfl, rfl⟩

/-- C4 counterexample: the claim states that every provider reports the
empty snapshot with the message `no upstreams available for service:
<name>`; the Nacos code (`nacos.go` line 164) uses
`no healthy upstreams available for service: <name>` and the mDNS code
(`mdns.go` line 158) uses `no mDNS instances available for service:
<name>`, so at service name `svc` the claimed message differs from the
produced one. -/
theorem c4_error_message_counterexample :
    Nacos.GetUpstreams [] "svc"
        = Except.error "no healthy upstreams available for service: svc"
  ∧ Mdns.GetUpstreams [] "svc"
        = Except.error "no mDNS instances available for service: svc"
  ∧ Nacos.GetUpstreams [] "svc"
        ≠ Except.error "no upstreams available for service: svc" := by
  refine ⟨rfl, rfl, fun h => ?_⟩
  have h2 :
      (Except.error "no healthy upstreams available for service: svc" :
        Except String (List Upstream))
        = Except.error "no upstreams available for service: svc" :=
    (rfl : Nacos.GetUpstreams [] "svc"
        = Except.error "no healthy upstreams available for service: svc").symm.trans h
  injection h2 with h3
  exact absurd h3 (by decide)

/-- C4 (amended): whenever the snapshot is empty, each fetch operation
returns an error naming the configured service — with message
`no healthy upstreams available for service: <name>` for the Nacos and
Consul providers and `no mDNS instances available for service: <name>`
for the mDNS provider — and never an empty list with a nil error; a
non-empty snapshot is returned unchanged with a nil error. -/
theorem c4_empty_snapshot_amended (u : Upstream) (rest : List Upstream)
    (serviceName : String) :
    Nacos.GetUpstreams [] serviceName
        = Except.error ("no healthy upstreams available for service: " ++ serviceName)
  ∧ Consul.GetUpstreams [] serviceName
        = Except.error ("no healthy upstreams available for service: " ++ serviceName)
  ∧ Mdns.GetUpstreams [] serviceName
        = Except.error ("no mDNS instances available for service: " ++ serviceName)
  ∧ Nacos.GetUpstreams (u :: rest) serviceName = Except.ok (u :: rest)
  ∧ Consul.GetUpstreams (u :: rest) serviceName = Except.ok (u :: rest)
  ∧ Mdns.GetUpstreams (u :: rest) serviceName = Except.ok (u :: rest) := by
  refine ⟨rfl, rfl, rfl, ?_, ?_, ?_⟩ <;>
    simp [Nacos.GetUpstreams, Consul.GetUpstreams, Mdns.GetUpstreams]

/-- C5: a transient refresh failure leaves the previously installed
snapshot unchanged — a Nacos subscription callback delivered with a
non-nil error returns without mutating the upstream list, and a Consul
per-tick query that returns an error performs no write to the upstream
list. -/
theorem c5_transient_error_preserves_snapshot (prev : List Upstream)
    (services : List Nacos.Instance) (callbackErr queryErr : String) :
    Nacos.SubscribeCallback prev services (some callbackErr) = prev
  ∧ Consul.updateUpstreams prev (Except.error queryErr) = prev :=
  ⟨rfl, rfl⟩

/-- C6: a successful Nacos notification installs exactly the dial targets
`ip:port` of the delivered instances flagged both enabled and healthy and
no others; in particular delivering one enabled-and-healthy and one
enabled-but-unhealthy instance installs exactly the first one. -/
theorem c6_nacos_enabled_healthy_filter (prev : List Upstream)
    (services : List Nacos.Instance) :
    Nacos.SubscribeCallback prev services none
      = (services.filter (fun s => s.Enable && s.Healthy)).map
          (fun s => ⟨joinHostPort s.Ip (toString s.Port)⟩)
  ∧ Nacos.SubscribeCallback prev
      [{ Enable := true, Healthy := true, Ip := "10.0.0.1", Port := 8080 },
       { Enable := true, Healthy := false, Ip := "10.0.0.2", Port := 8080 }]
      none
      = [⟨"10.0.0.1:8080"⟩] := by
  constructor
  · simp only [Nacos.SubscribeCallback]
    rw [nacos_rebuild_go]
    simp
  · simp only [Nacos.SubscribeCallback]
    decide

/-- C7: a successful Consul poll installs, for every returned service
entry, the dial target built from the service-level address when it is
non-empty and from the node-level address otherwise, paired with the
service-level port; in particular the entry with an empty service address,
node address `10.0.0.5` and port `9000` installs `10.0.0.5:9000`. -/
theorem c7_consul_address_fallback (prev : List Upstream)
    (entries : List Consul.ServiceEntry) :
    Consul.updateUpstreams prev (Except.ok entries)
      = entries.map (fun entry =>
          ⟨joinHostPort
            (if entry.ServiceAddress == "" then entry.NodeAddress
             else entry.ServiceAddress)
            (toString entry.ServicePort)⟩)
  ∧ Consul.updateUpstreams prev
      (Except.ok
        [{ ServiceAddress := "", NodeAddress := "10.0.0.5", ServicePort := 9000 }])
      = [⟨"10.0.0.5:9000"⟩] := by
  constructor
  · simp only [Consul.updateUpstreams]
    rw [consul_rebuild_go]
    simp
  · simp only [Consul.updateUpstreams]
    decide

/-- C8: for the mDNS consumer, an entry with TTL = 0 whose instance id is
present in the active-instances map removes exactly that binding (every
other binding is unchanged) and installs the flattening of the remaining
map as the snapshot; an entry with TTL = 0 for an absent instance id
changes neither the map nor the store. -/
theorem c8_mdns_ttl_zero_frame (st : Mdns.State) (entry : Mdns.ServiceEntry)
    (httl : entry.TTL = 0)
    (hkeys : (st.activeServices.map Prod.fst).Nodup) :
    (Mdns.lookupKey entry.Instance st.activeServices = none →
        Mdns.processEntry st entry = some st)
  ∧ ((Mdns.lookupKey entry.Instance st.activeServices).isSome →
      Mdns.processEntry st entry
          = some ⟨Mdns.eraseKey entry.Instance st.activeServices,
                  Mdns.updateUpstreams
                    (Mdns.eraseKey entry.Instance st.activeServices)⟩
        ∧ Mdns.lookupKey entry.Instance
            (Mdns.eraseKey entry.Instance st.activeServices) = none
        ∧ ∀ k, k ≠ entry.Instance →
            Mdns.lookupKey k (Mdns.eraseKey entry.Instance st.activeServices)
              = Mdns.lookupKey k st.activeServices) := by
  constructor
  · intro hnone
    simp [Mdns.processEntry, httl, hnone]
  · intro hsome
    refine ⟨?_, lookupKey_eraseKey_self _ _ hkeys,
      fun k hk => lookupKey_eraseKey_ne _ _ _ hk⟩
    simp [Mdns.processEntry, httl, hsome]

/-- C8 witness: deleting instance `a` out of the two active instances
`a`, `b` yields the map and snapshot holding exactly `b`. -/
theorem c8_mdns_ttl_zero_frame_witness :
    Mdns.processEntry
        ⟨[("a", ⟨"10.0.0.1:80"⟩), ("b", ⟨"10.0.0.2:80"⟩)],
         [⟨"10.0.0.1:80"⟩, ⟨"10.0.0.2:80"⟩]⟩
        { Instance := "a", Port := 80, TTL := 0, AddrIPv4 := [], AddrIPv6 := [] }
      = some ⟨[("b", ⟨"10.0.0.2:80"⟩)], [⟨"10.0.0.2:80"⟩]⟩ := by
  have h := (c8_mdns_ttl_zero_frame
      ⟨[("a", ⟨"10.0.0.1:80"⟩), ("b", ⟨"10.0.0.2:80"⟩)],
       [⟨"10.0.0.1:80"⟩, ⟨"10.0.0.2:80"⟩]⟩
      { Instance := "a", Port := 80, TTL := 0, AddrIPv4 := [], AddrIPv6 := [] }
      rfl (by decide)).2 (by decide)
  exact h.1.trans (by decide)

/-- C9: in every valid execution of one provider snapshot store (the
mutex serializes all replacements and reads into one linear event
sequence), a fetch returns either the initial empty snapshot or a list
installed in its entirety by one of the replace events, never an
interleaving of two replacements. -/
theorem c9_snapshot_atomicity (events : List Store.Event)
    (hvalid : Store.validTrace events = true) (r : List Upstream)
    (hr : Store.Event.read r ∈ events) :
    r = [] ∨ Store.Event.replace r ∈ events :=
  validFrom_read_mem [] events hvalid r hr

/-- C9 witness: in the two-event execution that installs the snapshot
`10.0.0.1:8080` and then reads it, the read result is one of the installed
snapshots. -/
theorem c9_snapshot_atomicity_witness :
    [Upstream.mk "10.0.0.1:8080"] = ([] : List Upstream)
  ∨ Store.Event.replace [Upstream.mk "10.0.0.1:8080"]
      ∈ [Store.Event.replace [Upstream.mk "10.0.0.1:8080"],
         Store.Event.read [Upstream.mk "10.0.0.1:8080"]] :=
  c9_snapshot_atomicity _ (by decide) _ (by decide)

/-- C10: a refresh that succeeds with zero surviving endpoints replaces
the snapshot with the empty list, discarding the previous endpoints: a
successful Consul query returning no service entries installs the empty
list, a successful Nacos notification whose instances all fail the
enabled-and-healthy filter installs the empty list, and in both cases a
subsequent fetch returns the unavailability error. -/
theorem c10_empty_success_discards_snapshot (prev : List Upstream)
    (serviceName : String) (services : List Nacos.Instance)
    (hfiltered : services.filter (fun s => s.Enable && s.Healthy) = []) :
    Consul.updateUpstreams prev (Except.ok []) = []
  ∧ Nacos.SubscribeCallback prev services none = []
  ∧ Consul.GetUpstreams (Consul.updateUpstreams prev (Except.ok [])) serviceName
      = Except.error ("no healthy upstreams available for service: " ++ serviceName)
  ∧ Nacos.GetUpstreams (Nacos.SubscribeCallback prev services none) serviceName
      = Except.error ("no healthy upstreams available for service: " ++ serviceName) := by
  have h2 : Nacos.SubscribeCallback prev services none = [] := by
    simp only [Nacos.SubscribeCallback]
    rw [nacos_rebuild_go, hfiltered]
    simp
  refine ⟨rfl, h2, rfl, ?_⟩
  rw [h2]
  rfl

/-- C10 witness: a notification delivering one unhealthy instance wipes a
previously non-empty snapshot and the next fetch fails with the
unavailability error. -/
theorem c10_empty_success_discards_snapshot_witness :
    Nacos.SubscribeCallback [⟨"10.0.0.9:1"⟩]
        [{ Enable := true, Healthy := false, Ip := "10.0.0.2", Port := 8080 }]
        none
      = []
  ∧ Nacos.GetUpstreams
      (Nacos.SubscribeCallback [⟨"10.0.0.9:1"⟩]
        [{ Enable := true, Healthy := false, Ip := "10.0.0.2", Port := 8080 }]
        none)
      "svc"
      = Except.error "no healthy upstreams available for service: svc" := by
  have h := c10_empty_success_discards_snapshot [⟨"10.0.0.9:1"⟩] "svc"
      [{ Enable := true, Healthy := false, Ip := "10.0.0.2", Port := 8080 }]
      (by decide)
  exact ⟨h.2.1, h.2.2.2.trans (congrArg Except.error (by decide))⟩

end CaddyPlus
